import Mathlib

/-!
Verification of the trivia session engine of `server.js`
(Assignment 4 — Build a Trivia Game with ChatGPT).

JavaScript strings are modelled as `List Char`; the mutable module-level
state of the server (`triviaQuestions`, `currentQuestion`, `currentAnswer`,
`userScore`, `questionNumber`) is modelled as an explicit `EngineState`
threaded through the route handlers.  The external OpenAI call is modelled
by a `SourceResult` parameter (its content on success, or failure), and
`Math.random()` by a natural-number parameter reduced modulo the store
length.
-/

namespace Trivia

/-- `s.toLowerCase()` on the character list model (ASCII case folding). -/
def lowerChars (s : List Char) : List Char := s.map Char.toLower

/-- `s.trim()`: surrounding whitespace removed from both ends. -/
def trimChars (s : List Char) : List Char :=
  ((s.dropWhile Char.isWhitespace).reverse.dropWhile Char.isWhitespace).reverse

/-- Case-insensitive "does `s` start with `pat`" test. -/
def ciStartsWith (pat s : List Char) : Bool :=
  (lowerChars pat).isPrefixOf (lowerChars s)

/-- Index of the first case-insensitive occurrence of `pat` in `s`
(the position at which a regex literal such as `/Answer:/i` first matches). -/
def findOccCI (pat : List Char) : List Char → Option Nat
  | [] => if pat.isEmpty then some 0 else none
  | c :: rest =>
    if ciStartsWith pat (c :: rest) then some 0
    else (findOccCI pat rest).map (· + 1)

/-- Fuel-driven worker for `splitOnCI`. -/
def splitOnCIAux (pat : List Char) : Nat → List Char → List (List Char)
  | 0, s => [s]
  | fuel + 1, s =>
    match findOccCI pat s with
    | none => [s]
    | some i => s.take i :: splitOnCIAux pat fuel (s.drop (i + pat.length))

/-- `s.split(/pat/i)`: split on every case-insensitive occurrence of `pat`. -/
def splitOnCI (pat s : List Char) : List (List Char) :=
  splitOnCIAux pat (s.length + 1) s

/-- `s.replace(/pat/i, repl)`: replace the first case-insensitive occurrence. -/
def replaceFirstCI (pat repl s : List Char) : List Char :=
  match findOccCI pat s with
  | none => s
  | some i => s.take i ++ repl ++ s.drop (i + pat.length)

/-- The literal label `Question:` from the parsing regexes. -/
def questionLabel : List Char := "Question:".data

/-- The literal label `Answer:` from the parsing regexes and the join. -/
def answerLabel : List Char := "Answer:".data

/-- The strict regex `text.match(/Question:\s*([\s\S]*?)\s*Answer:\s*([\s\S]*)/i)`:
if a `Question:` label occurs and an `Answer:` label occurs after it, the
(lazily captured, trimmed) text between the first such pair of labels is the
question and the (trimmed) text after that `Answer:` label is the answer. -/
def strictMatch (text : List Char) : Option (List Char × List Char) :=
  match findOccCI questionLabel text with
  | none => none
  | some i =>
    let afterQ := text.drop (i + questionLabel.length)
    match findOccCI answerLabel afterQ with
    | none => none
    | some j =>
      some (trimChars (afterQ.take j), trimChars (afterQ.drop (j + answerLabel.length)))

/-- The fallback branch: `text.split(/Answer:/i)`; with at least two parts,
the question is the first part with a leading `Question:` label removed and
trimmed, the answer is the remaining parts rejoined with `Answer:`, trimmed. -/
def looseParse (text : List Char) : Option (List Char × List Char) :=
  match splitOnCI answerLabel text with
  | p0 :: p1 :: rest =>
    some (trimChars (replaceFirstCI questionLabel [] p0),
          trimChars (List.intercalate answerLabel (p1 :: rest)))
  | _ => none

/-- Lines 107–126 of `server.js`: strict regex first, else the split fallback,
then the `if (!question || !answer)` emptiness check. -/
def parseQA (text : List Char) : Option (List Char × List Char) :=
  match (match strictMatch text with
         | some qa => some qa
         | none => looseParse text) with
  | some (q, a) => if q.isEmpty || a.isEmpty then none else some (q, a)
  | none => none

/-- `true` when a strategy result offers no non-empty question/answer pair. -/
def yieldsNoQA : Option (List Char × List Char) → Bool
  | none => true
  | some (q, a) => q.isEmpty || a.isEmpty

/-- One entry of the `triviaQuestions` array: `{ question, answer }`. -/
structure QuestionRecord where
  question : List Char
  answer : List Char
deriving DecidableEq, Repr

/-- `let maxTriviaQuestions = 100`. -/
def maxTriviaQuestions : Nat := 100

/-- `storeTriviaQuestion(question, answer)`: skip if a record with the same
question text exists, else push, then `shift()` the oldest record when the
length exceeds `maxTriviaQuestions`. -/
def storeTriviaQuestion (question answer : List Char) (qs : List QuestionRecord) :
    List QuestionRecord :=
  if qs.any (fun r => r.question == question) then qs
  else if (qs ++ [QuestionRecord.mk question answer]).length > maxTriviaQuestions
    then (qs ++ [QuestionRecord.mk question answer]).tail
    else qs ++ [QuestionRecord.mk question answer]

/-- The record built from a question/answer argument pair. -/
def toRecord (p : List Char × List Char) : QuestionRecord :=
  ⟨p.1, p.2⟩

/-- The module-level mutable state of `server.js`. `userScore` and
`questionNumber` are the two plain objects, read with a default of `0`
(`userScore[userId] || 0`), hence modelled as total maps into `Nat`. -/
structure EngineState where
  triviaQuestions : List QuestionRecord
  currentQuestion : Option (List Char)
  currentAnswer : Option (List Char)
  userScore : List Char → Nat
  questionNumber : List Char → Nat

/-- The state at server start: empty store, no active question, all zero. -/
def initState : EngineState :=
  { triviaQuestions := []
    currentQuestion := none
    currentAnswer := none
    userScore := fun _ => 0
    questionNumber := fun _ => 0 }

/-- JavaScript truthiness test for a nullable string: `!s` is `true` when
`s` is `null` or the empty string. -/
def isFalsy : Option (List Char) → Bool
  | none => true
  | some s => s.isEmpty

/-- `req.body.userId || 'default'`: a missing or empty id falls back to
the shared `"default"` bucket. -/
def resolveUserId : Option (List Char) → List Char
  | none => "default".data
  | some s => if s.isEmpty then "default".data else s

/-- Line 158: `userAnswer.toLowerCase().trim() === currentAnswer.toLowerCase().trim()`. -/
def grade (submitted expected : List Char) : Bool :=
  trimChars (lowerChars submitted) == trimChars (lowerChars expected)

/-- Outcome of the external OpenAI chat-completion call in `GET /question`:
the message content on success, or a thrown network/service error. -/
inductive SourceResult where
  | ok (content : List Char)
  | fail
deriving DecidableEq, Repr

/-- Observable outcome of `GET /question`: `renderChat(res, { question })`,
the 500 `Could not parse question/answer from AI response` error, or the 500
`Unable to get trivia question` error. -/
inductive QuestionResult where
  | rendered (question : List Char)
  | parseError
  | noQuestionAvailable
deriving DecidableEq, Repr

/-- The `GET /question` handler (lines 79–145 of `server.js`).  `k` models
the value drawn from `Math.random()` for the fallback index: the code uses
`Math.floor(Math.random() * triviaQuestions.length)`, i.e. an arbitrary
index below the store length, here `k % length`. -/
def requestNewQuestion (src : SourceResult) (k : Nat) (st : EngineState) :
    QuestionResult × EngineState :=
  match src with
  | .ok content =>
    let text := trimChars content
    match parseQA text with
    | none => (.parseError, st)
    | some (q, a) =>
      (.rendered q,
       { st with
           triviaQuestions := storeTriviaQuestion q a st.triviaQuestions
           currentQuestion := some q
           currentAnswer := some a })
  | .fail =>
    if h : 0 < st.triviaQuestions.length then
      (.rendered (st.triviaQuestions.get
        ⟨k % st.triviaQuestions.length, Nat.mod_lt k h⟩).question, st)
    else
      (.noQuestionAvailable, st)

/-- Observable outcome of `POST /answer`: the `No active question found`
render, the graded render, or the `TypeError` thrown by
`userAnswer.toLowerCase()` when `req.body.answer` is `undefined`. -/
inductive AnswerOutcome where
  | noActive
  | graded (question answer userAnswer : List Char) (correct : Bool)
  | typeError
deriving DecidableEq, Repr

/-- The `POST /answer` handler (lines 147–169 of `server.js`), with
`updateUserScore` and `updateQuestionNumber` inlined as map updates on the
0-defaulted score and progress maps. -/
def submitAnswer (answer userId : Option (List Char)) (st : EngineState) :
    AnswerOutcome × EngineState :=
  let uid := resolveUserId userId
  if isFalsy st.currentQuestion || isFalsy st.currentAnswer then
    (.noActive, st)
  else
    match answer with
    | none => (.typeError, st)
    | some userAnswer =>
      let cq := st.currentQuestion.getD []
      let ca := st.currentAnswer.getD []
      let correct := grade userAnswer ca
      (.graded cq ca userAnswer correct,
       { st with
           userScore :=
             if correct then Function.update st.userScore uid (st.userScore uid + 1)
             else st.userScore
           questionNumber := Function.update st.questionNumber uid (st.questionNumber uid + 1) })

/-- The `GET /score` handler: `{ score, questionsAnswered }` with `|| 0`
defaults. -/
def getScore (userId : Option (List Char)) (st : EngineState) : Nat × Nat :=
  let uid := resolveUserId userId
  (st.userScore uid, st.questionNumber uid)

/-- A client-visible operation against the running server. -/
inductive Op where
  | question (src : SourceResult) (k : Nat)
  | answer (ans : Option (List Char)) (uid : Option (List Char))
  | score (uid : Option (List Char))

/-- State transition of one operation (`GET /score` reads only). -/
def stepOp (st : EngineState) (op : Op) : EngineState :=
  match op with
  | .question src k => (requestNewQuestion src k st).2
  | .answer a u => (submitAnswer a u st).2
  | .score _ => st

/-- Run a sequence of operations from server start. -/
def runOps (ops : List Op) : EngineState :=
  ops.foldl stepOp initState

/-- A sequence of `storeTriviaQuestion` calls applied left to right. -/
def addAll (ops : List (List Char × List Char)) (qs : List QuestionRecord) :
    List QuestionRecord :=
  ops.foldl (fun acc p => storeTriviaQuestion p.1 p.2 acc) qs

/-- A state whose store holds one record and with no active question. -/
def exState1 : EngineState :=
  { initState with triviaQuestions := [⟨"Q1?".data, "A1".data⟩] }

/-- A state with an active question and an empty store. -/
def exActiveState : EngineState :=
  { initState with
      currentQuestion := some "What is 2+2?".data
      currentAnswer := some "4".data }

/-- 101 insertions with pairwise-distinct one-character question texts. -/
def exOps : List (List Char × List Char) :=
  (List.range (maxTriviaQuestions + 1)).map (fun i => ([Char.ofNat (48 + i)], "x".data))

/-! ## Helper lemmas -/

/-- One `storeTriviaQuestion` call keeps the store within `maxTriviaQuestions`. -/
theorem storeTriviaQuestion_length_le (q a : List Char) (qs : List QuestionRecord)
    (h : qs.length ≤ maxTriviaQuestions) :
    (storeTriviaQuestion q a qs).length ≤ maxTriviaQuestions := by
  unfold storeTriviaQuestion
  split
  · exact h
  · split <;> simp_all

/-- Any sequence of `storeTriviaQuestion` calls keeps the store within
`maxTriviaQuestions`. -/
theorem addAll_length_le (ops : List (List Char × List Char)) (qs : List QuestionRecord)
    (h : qs.length ≤ maxTriviaQuestions) :
    (addAll ops qs).length ≤ maxTriviaQuestions := by
  induction ops generalizing qs with
  | nil => simpa [addAll] using h
  | cons p rest ih =>
    exact ih (storeTriviaQuestion p.1 p.2 qs) (storeTriviaQuestion_length_le p.1 p.2 qs h)

/-- Adding a question not present in the store appends it, evicting the oldest
record when the capacity would be exceeded. -/
theorem storeTriviaQuestion_fresh (q a : List Char) (qs : List QuestionRecord)
    (hq : q ∉ qs.map QuestionRecord.question) :
    storeTriviaQuestion q a qs =
      if qs.length + 1 > maxTriviaQuestions then (qs ++ [toRecord (q, a)]).tail
      else qs ++ [toRecord (q, a)] := by
  have hany : qs.any (fun r => r.question == q) = false := by
    rw [List.any_eq_false]
    intro r hr hcontra
    exact hq (List.mem_map.mpr ⟨r, hr, by simpa using hcontra⟩)
  simp [storeTriviaQuestion, hany, toRecord]

/-- Adding pairwise-fresh questions keeps exactly the most recent
`maxTriviaQuestions` records, in insertion order. -/
theorem addAll_fresh (ops : List (List Char × List Char)) (qs : List QuestionRecord)
    (hnd : (qs.map QuestionRecord.question ++ ops.map Prod.fst).Nodup)
    (hlen : qs.length ≤ maxTriviaQuestions) :
    addAll ops qs =
      (qs ++ ops.map toRecord).drop
        (qs.length + ops.length - maxTriviaQuestions) := by
  induction ops generalizing qs with
  | nil =>
    simp [addAll, Nat.sub_eq_zero_of_le hlen]
  | cons p rest ih =>
    obtain ⟨q, a⟩ := p
    have hsplit := List.nodup_append.mp (by simpa using hnd)
    have hqnotin : q ∉ qs.map QuestionRecord.question := by
      intro hmem
      exact hsplit.2.2 hmem (by simp)
    have hstep : addAll ((q, a) :: rest) qs
        = addAll rest (storeTriviaQuestion q a qs) := rfl
    rw [hstep, storeTriviaQuestion_fresh q a qs hqnotin]
    by_cases hcap : qs.length + 1 > maxTriviaQuestions
    · have hlen100 : qs.length = maxTriviaQuestions := by omega
      cases qs with
      | nil => simp [maxTriviaQuestions] at hlen100
      | cons r0 qt =>
        rw [if_pos hcap]
        have htail : ((r0 :: qt) ++ [toRecord (q, a)]).tail
            = qt ++ [toRecord (q, a)] := by simp
        rw [htail]
        have hnd2 : ((qt ++ [toRecord (q, a)]).map QuestionRecord.question
            ++ rest.map Prod.fst).Nodup := by
          have h0 : ((r0 :: qt).map QuestionRecord.question
              ++ ((q, a) :: rest).map Prod.fst).Nodup := hnd
          simp only [List.map_cons] at h0
          have h2 := (List.cons_append _ _ _ ▸ h0).of_cons
          simpa [toRecord, List.append_assoc] using h2
        have hlen2 : (qt ++ [toRecord (q, a)]).length ≤ maxTriviaQuestions := by
          simp at hlen100 ⊢
          omega
        rw [ih (qt ++ [toRecord (q, a)]) hnd2 hlen2]
        have hqt : qt.length + 1 = maxTriviaQuestions := by simpa using hlen100
        have hamt1 : (qt ++ [toRecord (q, a)]).length + rest.length
            - maxTriviaQuestions = rest.length := by
          simp
          omega
        have hamt2 : (r0 :: qt).length + ((q, a) :: rest).length - maxTriviaQuestions
            = rest.length + 1 := by
          simp
          omega
        rw [hamt1, hamt2]
        simp [List.append_assoc]
    · rw [if_neg hcap]
      have hnd2 : ((qs ++ [toRecord (q, a)]).map QuestionRecord.question
          ++ rest.map Prod.fst).Nodup := by
        simpa [toRecord, List.append_assoc] using hnd
      have hlen2 : (qs ++ [toRecord (q, a)]).length ≤ maxTriviaQuestions := by
        simp
        omega
      rw [ih (qs ++ [toRecord (q, a)]) hnd2 hlen2]
      have hamt : (qs ++ [toRecord (q, a)]).length + rest.length
          = qs.length + ((q, a) :: rest).length := by simp; omega
      rw [hamt]
      simp [List.append_assoc]

end Trivia
namespace Trivia

/-- `GET /question` never touches the score or progress maps. -/
theorem requestNewQuestion_preserves_counters (src : SourceResult) (k : Nat)
    (st : EngineState) :
    (requestNewQuestion src k st).2.userScore = st.userScore ∧
    (requestNewQuestion src k st).2.questionNumber = st.questionNumber := by
  cases src with
  | ok content =>
    cases h : parseQA (trimChars content) with
    | none => simp [requestNewQuestion, h]
    | some qa => obtain ⟨q, a⟩ := qa; simp [requestNewQuestion, h]
  | fail =>
    by_cases h : 0 < st.triviaQuestions.length <;> simp [requestNewQuestion, h]

/-- `POST /answer` preserves the pointwise bound of score by progress. -/
theorem submitAnswer_counters_mono (a u : Option (List Char)) (st : EngineState)
    (hinv : ∀ v, st.userScore v ≤ st.questionNumber v) (v : List Char) :
    (submitAnswer a u st).2.userScore v ≤ (submitAnswer a u st).2.questionNumber v := by
  by_cases hc : (isFalsy st.currentQuestion || isFalsy st.currentAnswer) = true
  · simpa [submitAnswer, hc] using hinv v
  · rw [Bool.not_eq_true] at hc
    cases a with
    | none => simpa [submitAnswer, hc] using hinv v
    | some ua =>
      cases hg : grade ua (st.currentAnswer.getD []) with
      | false =>
        by_cases hv : v = resolveUserId u <;>
          simp [submitAnswer, hc, hg, Function.update_apply, hv] <;>
          first
          | exact hinv _
          | exact Nat.le_succ_of_le (hinv _)
      | true =>
        by_cases hv : v = resolveUserId u <;>
          simp [submitAnswer, hc, hg, Function.update_apply, hv] <;>
          exact hinv _

/-- Every operation preserves the pointwise bound of score by progress. -/
theorem stepOp_counters_mono (st : EngineState) (op : Op)
    (hinv : ∀ v, st.userScore v ≤ st.questionNumber v) (v : List Char) :
    (stepOp st op).userScore v ≤ (stepOp st op).questionNumber v := by
  cases op with
  | question src k =>
    have h := requestNewQuestion_preserves_counters src k st
    simpa [stepOp, h.1, h.2] using hinv v
  | answer a u => exact submitAnswer_counters_mono a u st hinv v
  | score u => exact hinv v

/-- Folding any operation sequence preserves the score/progress bound. -/
theorem foldl_counters_mono (ops : List Op) (st : EngineState)
    (hinv : ∀ v, st.userScore v ≤ st.questionNumber v) :
    ∀ v, (ops.foldl stepOp st).userScore v ≤ (ops.foldl stepOp st).questionNumber v := by
  induction ops generalizing st with
  | nil => simpa using hinv
  | cons op rest ih =>
    exact ih (stepOp st op) (fun v => stepOp_counters_mono st op hinv v)

/-! ## Claim theorems -/

/-- C1 (counterexample): with a non-empty store and a generation text that
fails to parse, `requestNewQuestion` does **not** fall back to the store: it
fails with the parse error, so the claimed fallback on generation-parse
failure does not happen. -/
theorem requestNewQuestion_parse_failure_no_fallback :
    1 ≤ exState1.triviaQuestions.length ∧
    parseQA (trimChars "hello there".data) = none ∧
    requestNewQuestion (.ok "hello there".data) 0 exState1 = (.parseError, exState1) :=
  ⟨by decide, by decide, rfl⟩

/-- C1 (amended): on a QuestionSource failure, `requestNewQuestion` falls back
to a stored record when the store is non-empty and fails with
`NoQuestionAvailableError` leaving the state unchanged when it is empty; on a
generation-parse failure it fails with `GenerationParseError` without
consulting the store, leaving the state unchanged. -/
theorem requestNewQuestion_failure_paths (k : Nat) (st : EngineState)
    (content : List Char) :
    (0 < st.triviaQuestions.length →
      ∃ r, r ∈ st.triviaQuestions ∧
        requestNewQuestion .fail k st = (.rendered r.question, st)) ∧
    (st.triviaQuestions = [] →
      requestNewQuestion .fail k st = (.noQuestionAvailable, st)) ∧
    (parseQA (trimChars content) = none →
      requestNewQuestion (.ok content) k st = (.parseError, st)) := by
  refine ⟨fun h => ?_, fun h => ?_, fun h => ?_⟩
  · refine ⟨st.triviaQuestions.get ⟨k % st.triviaQuestions.length, Nat.mod_lt k h⟩,
      List.get_mem _ _ _, by simp [requestNewQuestion, h]⟩
  · simp [requestNewQuestion, h]
  · simp [requestNewQuestion, h]

/-- Witness for C1 (amended) at concrete states. -/
theorem requestNewQuestion_failure_paths_witness :
    (∃ r, r ∈ exState1.triviaQuestions ∧
        requestNewQuestion .fail 5 exState1 = (.rendered r.question, exState1)) ∧
    requestNewQuestion .fail 0 initState = (.noQuestionAvailable, initState) ∧
    requestNewQuestion (.ok "hello".data) 0 exState1 = (.parseError, exState1) :=
  ⟨(requestNewQuestion_failure_paths 5 exState1 "x".data).1 (by decide),
   (requestNewQuestion_failure_paths 0 initState "x".data).2.1 rfl,
   (requestNewQuestion_failure_paths 0 exState1 "hello".data).2.2 (by decide)⟩

/-- C2: grading returns `true` exactly when lowercasing then trimming both
strings yields equal strings; `grade(" Paris ", "paris")` is true and
`grade("Paris", "France")` is false. -/
theorem grade_normalizes_case_and_whitespace :
    (∀ s e : List Char,
      grade s e = true ↔ trimChars (lowerChars s) = trimChars (lowerChars e)) ∧
    grade " Paris ".data "paris".data = true ∧
    grade "Paris".data "France".data = false := by
  refine ⟨fun s e => ?_, by decide, by decide⟩
  simp [grade]

/-- C3: on the fallback path with a non-empty store, the picked record's
question text is returned for display while `currentQuestion` and
`currentAnswer` keep their previous values (the whole state is unchanged). -/
theorem fallback_preserves_current_question (k : Nat) (st : EngineState)
    (h : 0 < st.triviaQuestions.length) :
    requestNewQuestion .fail k st =
      (.rendered (st.triviaQuestions.get
          ⟨k % st.triviaQuestions.length, Nat.mod_lt k h⟩).question, st) ∧
    (requestNewQuestion .fail k st).2.currentQuestion = st.currentQuestion ∧
    (requestNewQuestion .fail k st).2.currentAnswer = st.currentAnswer := by
  refine ⟨by simp [requestNewQuestion, h], ?_, ?_⟩ <;> simp [requestNewQuestion, h]

/-- Witness for C3 at a concrete one-record store. -/
theorem fallback_preserves_current_question_witness :
    0 < exState1.triviaQuestions.length ∧
    (requestNewQuestion .fail 0 exState1).1 = .rendered "Q1?".data ∧
    (requestNewQuestion .fail 0 exState1).2.currentQuestion = exState1.currentQuestion ∧
    (requestNewQuestion .fail 0 exState1).2.currentAnswer = exState1.currentAnswer := by
  have h := fallback_preserves_current_question 0 exState1 (by decide)
  exact ⟨by decide, by rw [h.1]; decide, h.2.1, h.2.2⟩

/-- C4: while a question is active, each `submitAnswer` call increments the
player's progress counter by exactly one, increments the score by one exactly
when grading returns correct, leaves other players' counters and the active
question unchanged, and a second identical call increments the counters
again. -/
theorem submitAnswer_active_updates_counters (st : EngineState) (ua : List Char)
    (u : Option (List Char))
    (hq : isFalsy st.currentQuestion = false) (ha : isFalsy st.currentAnswer = false) :
    ((submitAnswer (some ua) u st).2.questionNumber (resolveUserId u)
        = st.questionNumber (resolveUserId u) + 1) ∧
    ((submitAnswer (some ua) u st).2.userScore (resolveUserId u)
        = st.userScore (resolveUserId u)
          + (if grade ua (st.currentAnswer.getD []) then 1 else 0)) ∧
    (∀ v, v ≠ resolveUserId u →
      (submitAnswer (some ua) u st).2.questionNumber v = st.questionNumber v ∧
      (submitAnswer (some ua) u st).2.userScore v = st.userScore v) ∧
    ((submitAnswer (some ua) u st).2.currentQuestion = st.currentQuestion) ∧
    ((submitAnswer (some ua) u st).2.currentAnswer = st.currentAnswer) ∧
    ((submitAnswer (some ua) u (submitAnswer (some ua) u st).2).2.questionNumber
        (resolveUserId u) = st.questionNumber (resolveUserId u) + 2) ∧
    ((submitAnswer (some ua) u (submitAnswer (some ua) u st).2).2.userScore
        (resolveUserId u)
        = st.userScore (resolveUserId u)
          + (if grade ua (st.currentAnswer.getD []) then 2 else 0)) := by
  cases hg : grade ua (st.currentAnswer.getD []) with
  | false =>
    refine ⟨?_, ?_, fun v hv => ?_, ?_, ?_, ?_, ?_⟩
    · simp [submitAnswer, hq, ha, hg, Function.update_apply]
    · simp [submitAnswer, hq, ha, hg]
    · exact ⟨by simp [submitAnswer, hq, ha, hg, Function.update_apply, hv],
             by simp [submitAnswer, hq, ha, hg, Function.update_apply, hv]⟩
    · simp [submitAnswer, hq, ha, hg]
    · simp [submitAnswer, hq, ha, hg]
    · simp [submitAnswer, hq, ha, hg, Function.update_apply]
    · simp [submitAnswer, hq, ha, hg]
  | true =>
    refine ⟨?_, ?_, fun v hv => ?_, ?_, ?_, ?_, ?_⟩
    · simp [submitAnswer, hq, ha, hg, Function.update_apply]
    · simp [submitAnswer, hq, ha, hg, Function.update_apply]
    · exact ⟨by simp [submitAnswer, hq, ha, hg, Function.update_apply, hv],
             by simp [submitAnswer, hq, ha, hg, Function.update_apply, hv]⟩
    · simp [submitAnswer, hq, ha, hg]
    · simp [submitAnswer, hq, ha, hg]
    · simp [submitAnswer, hq, ha, hg, Function.update_apply]
    · simp [submitAnswer, hq, ha, hg, Function.update_apply]

/-- Witness for C4 at a concrete active question and a correct answer. -/
theorem submitAnswer_active_updates_counters_witness :
    isFalsy exActiveState.currentQuestion = false ∧
    isFalsy exActiveState.currentAnswer = false ∧
    grade " 4 ".data (exActiveState.currentAnswer.getD []) = true ∧
    (submitAnswer (some " 4 ".data) none exActiveState).2.questionNumber
        (resolveUserId none)
      = exActiveState.questionNumber (resolveUserId none) + 1 ∧
    (submitAnswer (some " 4 ".data) none exActiveState).2.userScore
        (resolveUserId none)
      = exActiveState.userScore (resolveUserId none)
        + (if grade " 4 ".data (exActiveState.currentAnswer.getD []) then 1 else 0) ∧
    (submitAnswer (some " 4 ".data) none
        (submitAnswer (some " 4 ".data) none exActiveState).2).2.questionNumber
        (resolveUserId none)
      = exActiveState.questionNumber (resolveUserId none) + 2 := by
  have h := submitAnswer_active_updates_counters exActiveState " 4 ".data none rfl rfl
  exact ⟨rfl, rfl, by decide, h.1, h.2.1, h.2.2.2.2.2.1⟩

/-- C5: in the NoQuestion state, `submitAnswer` fails with
`NoActiveQuestionError` and returns the state unchanged, so no score or
progress counter of any player is updated. -/
theorem submitAnswer_no_active_question_error (ans uid : Option (List Char))
    (st : EngineState) (hq : st.currentQuestion = none) (ha : st.currentAnswer = none) :
    submitAnswer ans uid st = (.noActive, st) := by
  simp [submitAnswer, hq, ha, isFalsy]

/-- Witness for C5 at the initial state. -/
theorem submitAnswer_no_active_question_error_witness :
    initState.currentQuestion = none ∧ initState.currentAnswer = none ∧
    submitAnswer (some "Paris".data) (some "p1".data) initState
      = (.noActive, initState) :=
  ⟨rfl, rfl,
   submitAnswer_no_active_question_error (some "Paris".data) (some "p1".data)
     initState rfl rfl⟩

/-- C6: the store never exceeds `maxTriviaQuestions` (100) records, and
inserting 101 distinct questions yields exactly 100 records equal to the
records of the last 100 insertions in original order, the very first
inserted question being absent. -/
theorem questionStore_bounded_fifo_eviction :
    (∀ ops : List (List Char × List Char),
      (addAll ops []).length ≤ maxTriviaQuestions) ∧
    (∀ ops : List (List Char × List Char),
      ops.length = maxTriviaQuestions + 1 → (ops.map Prod.fst).Nodup →
      addAll ops [] = (ops.map toRecord).drop 1 ∧
      (∀ p ∈ ops.head?, p.1 ∉ (addAll ops []).map QuestionRecord.question) ∧
      (addAll ops []).length = maxTriviaQuestions) := by
  constructor
  · intro ops
    exact addAll_length_le ops [] (by simp [maxTriviaQuestions])
  · intro ops hlen hnd
    have h := addAll_fresh ops [] (by simpa using hnd) (by simp [maxTriviaQuestions])
    have hdrop : addAll ops [] = (ops.map toRecord).drop 1 := by
      rw [h, List.nil_append]
      congr 1
      simp
      omega
    refine ⟨hdrop, ?_, ?_⟩
    · intro p hp
      cases ops with
      | nil => simp [maxTriviaQuestions] at hlen
      | cons p0 rest =>
        simp only [List.head?_cons, Option.mem_def, Option.some.injEq] at hp
        subst hp
        rw [hdrop]
        simp only [List.map_cons, List.drop_succ_cons, List.drop_zero, List.map_map]
        have hcomp : QuestionRecord.question ∘ toRecord = Prod.fst := by
          funext x
          rfl
        rw [hcomp]
        rw [List.map_cons] at hnd
        exact (List.nodup_cons.mp hnd).1
    · rw [hdrop]
      simp [hlen, maxTriviaQuestions]

/-- Witness for C6: 101 concrete distinct insertions. -/
theorem questionStore_bounded_fifo_eviction_witness :
    exOps.length = maxTriviaQuestions + 1 ∧ (exOps.map Prod.fst).Nodup ∧
    addAll exOps [] = (exOps.map toRecord).drop 1 ∧
    (addAll exOps []).length = maxTriviaQuestions :=
  ⟨by decide, by decide,
   (questionStore_bounded_fifo_eviction.2 exOps (by decide) (by decide)).1,
   (questionStore_bounded_fifo_eviction.2 exOps (by decide) (by decide)).2.2⟩

/-- C7: adding a question whose text is already stored is a no-op, even when
the new answer differs, so the first-inserted answer is retained. -/
theorem storeTriviaQuestion_duplicate_noop (qs : List QuestionRecord) (q a : List Char)
    (hmem : ∃ r ∈ qs, r.question = q) :
    storeTriviaQuestion q a qs = qs := by
  have hany : qs.any (fun r => r.question == q) = true := by
    obtain ⟨r, hr, hq⟩ := hmem
    exact List.any_eq_true.mpr ⟨r, hr, by simp [hq]⟩
  simp [storeTriviaQuestion, hany]

/-- Witness for C7: re-adding a stored question text with a different answer. -/
theorem storeTriviaQuestion_duplicate_noop_witness :
    (∃ r ∈ exState1.triviaQuestions, r.question = "Q1?".data) ∧
    storeTriviaQuestion "Q1?".data "other answer".data exState1.triviaQuestions
      = exState1.triviaQuestions :=
  ⟨by decide,
   storeTriviaQuestion_duplicate_noop exState1.triviaQuestions "Q1?".data
     "other answer".data (by decide)⟩

/-- C8: the parser applies the strict `Question: <Q> Answer: <A>` shape first;
when that regex does not match it falls back to splitting on `Answer:`; when
the applied strategies yield no non-empty question/answer pair the parse is a
failure, and `requestNewQuestion` then fails with `GenerationParseError`
leaving the state unchanged. -/
theorem parseQA_two_strategy_contract (text content : List Char) (k : Nat)
    (st : EngineState) :
    (∀ q a, strictMatch text = some (q, a) → q ≠ [] → a ≠ [] →
      parseQA text = some (q, a)) ∧
    (∀ q a, strictMatch text = none → looseParse text = some (q, a) → q ≠ [] → a ≠ [] →
      parseQA text = some (q, a)) ∧
    (yieldsNoQA (strictMatch text) = true → yieldsNoQA (looseParse text) = true →
      parseQA text = none) ∧
    (parseQA (trimChars content) = none →
      requestNewQuestion (.ok content) k st = (.parseError, st)) := by
  refine ⟨?_, ?_, ?_, fun h => by simp [requestNewQuestion, h]⟩
  · intro q a h hq ha
    simp [parseQA, h, hq, ha]
  · intro q a hs h hq ha
    simp [parseQA, hs, h, hq, ha]
  · intro h1 h2
    unfold parseQA
    cases hs : strictMatch text with
    | some qa =>
      obtain ⟨q, a⟩ := qa
      simp [hs, yieldsNoQA] at h1
      simp [h1]
    | none =>
      cases hl : looseParse text with
      | some qa =>
        obtain ⟨q, a⟩ := qa
        simp [hl, yieldsNoQA] at h2
        simp [hs, hl, h2]
      | none => simp [hs, hl]

/-- Witness for C8: a strict-shape text, a fallback-shape text, and an
unparseable text. -/
theorem parseQA_two_strategy_contract_witness :
    parseQA "Question: What is 2+2? Answer: 4".data
      = some ("What is 2+2?".data, "4".data) ∧
    parseQA "What is 2+2? Answer: 4".data
      = some ("What is 2+2?".data, "4".data) ∧
    parseQA "hello there".data = none ∧
    requestNewQuestion (.ok "hello there".data) 0 exState1 = (.parseError, exState1) :=
  ⟨(parseQA_two_strategy_contract "Question: What is 2+2? Answer: 4".data [] 0
      initState).1 "What is 2+2?".data "4".data (by decide) (by decide) (by decide),
   (parseQA_two_strategy_contract "What is 2+2? Answer: 4".data [] 0
      initState).2.1 "What is 2+2?".data "4".data (by decide) (by decide) (by decide)
      (by decide),
   (parseQA_two_strategy_contract "hello there".data [] 0 initState).2.2.1
      (by decide) (by decide),
   (parseQA_two_strategy_contract [] "hello there".data 0 exState1).2.2.2 (by decide)⟩

/-- C9 (counterexample): a missing submitted answer does not produce one
input-validation failure regardless of state: with no active question the
call fails with `NoActiveQuestionError`, while with an active question it
throws a `TypeError`; the two outcomes differ. -/
theorem submitAnswer_missing_answer_depends_on_state :
    submitAnswer none none exState1 = (.noActive, exState1) ∧
    submitAnswer none none exActiveState = (.typeError, exActiveState) ∧
    (submitAnswer none none exState1).1 ≠ (submitAnswer none none exActiveState).1 :=
  ⟨rfl, rfl, by decide⟩

/-- C9 (amended): with an active question, a missing submitted answer makes
`submitAnswer` fail by throwing a `TypeError` (it is not silently coerced);
with no active question it fails with `NoActiveQuestionError`; in both cases
the state, hence every counter, is unchanged. -/
theorem submitAnswer_missing_answer_behavior (uid : Option (List Char))
    (st : EngineState) :
    (isFalsy st.currentQuestion = false → isFalsy st.currentAnswer = false →
      submitAnswer none uid st = (.typeError, st)) ∧
    (st.currentQuestion = none → st.currentAnswer = none →
      submitAnswer none uid st = (.noActive, st)) := by
  constructor
  · intro hq ha
    simp [submitAnswer, hq, ha]
  · intro hq ha
    simp [submitAnswer, hq, ha, isFalsy]

/-- Witness for C9 (amended) at concrete states. -/
theorem submitAnswer_missing_answer_behavior_witness :
    submitAnswer none (some "p1".data) exActiveState = (.typeError, exActiveState) ∧
    submitAnswer none (some "p1".data) exState1 = (.noActive, exState1) :=
  ⟨(submitAnswer_missing_answer_behavior (some "p1".data) exActiveState).1 rfl rfl,
   (submitAnswer_missing_answer_behavior (some "p1".data) exState1).2 rfl rfl⟩

/-- C10: after any sequence of operations from server start, every player's
score is at most their progress count. -/
theorem score_le_progress_invariant (ops : List Op) (u : List Char) :
    (runOps ops).userScore u ≤ (runOps ops).questionNumber u :=
  foldl_counters_mono ops initState (fun _ => Nat.le_refl 0) u

end Trivia
